import Mathlib

/-!
# PrimeTime playback synchronization engine — verification development

A shallow embedding of the playback state machine (`src/playback.py`,
`PlaybackManager`), the persistence helpers it uses (`src/database.py`),
and the show-channel telemetry handler (`src/routes/websocket.py`,
`on_show_status`), together with theorems settling the specification's
claims about them.

Conventions of the embedding:
* Python's `time.time()` (seconds, fractional) is passed explicitly as a
  rational parameter `t`; the code's `time.time() * 1000` becomes `t * 1000`.
  Where the source re-reads the clock inside nested calls, a single sample
  is threaded through; only timestamp-valued fields depend on it.
* Python `int()` truncates toward zero; `pyTrunc` models it on rationals.
* A timeline dict is modelled as `TimelineData`; a missing or empty
  `items` key and an empty dict are collapsed into `items = []`, which is
  behaviourally identical in every code path of `playback.py` (every
  access is guarded by the same truthiness test).
* Database rows are modelled as records; the JSON text column
  `timeline_json` stores its decoded content directly (`json.dumps` /
  `json.loads` round-trip is treated as the identity).
* Fallible Python subscripts (`items[i]` with an arbitrary integer) are
  modelled with `Except Unit`, an `IndexError` being `Except.error ()`.
-/

/-- Timeline item payload: opaque to the state machine (interpreted only by
renderers), modelled as a string. -/
abbrev Item := String

/-- Decoded content of a timeline JSON document: a name and an ordered
sequence of items. -/
structure TimelineData where
  name : String
  items : List Item
  deriving Repr, DecidableEq

/-- The `state` attribute of `PlaybackManager`
(IDLE, LOADING, PLAYING, PAUSED, TRANSITIONING, BLACKOUT, ERROR). -/
inductive MachineState
  | IDLE | LOADING | PLAYING | PAUSED | TRANSITIONING | BLACKOUT | ERROR
  deriving Repr, DecidableEq

/-- In-memory state of `PlaybackManager` (src/playback.py lines 14-23).
`playback_start_time` is the Unix timestamp in milliseconds recorded by
`play`, or `none`. -/
structure PM where
  current_timeline : Option TimelineData
  current_index : ℤ
  timecode_ms : ℤ
  is_playing : Bool
  playback_start_time : Option ℚ
  initial_offset_ms : ℤ
  state : MachineState
  deriving Repr, DecidableEq

/-- The singleton `playback_state` row (src/models.py, `PlaybackState`,
id fixed to 1, so the id column is left implicit). -/
structure PlaybackRecord where
  timeline_id : Option ℕ
  current_index : ℤ
  timecode_ms : ℤ
  is_playing : Bool
  updated_at : ℤ
  deriving Repr, DecidableEq

/-- A `timelines` row (src/models.py, `Timeline`); `timeline_json` holds
the decoded JSON content. -/
structure TimelineRec where
  id : ℕ
  name : String
  timeline_json : TimelineData
  theme_id : String
  created_at : ℤ
  updated_at : ℤ
  is_active : Bool
  notes : Option String
  deriving Repr, DecidableEq

/-- The database: the singleton playback-state row (absent until seeded by
`init_db`) and the timeline table in insertion order. -/
structure DB where
  playback : Option PlaybackRecord
  timelines : List TimelineRec
  deriving Repr, DecidableEq

/-- Python `int()` on a rational: truncation toward zero. -/
def pyTrunc (q : ℚ) : ℤ :=
  if 0 ≤ q then ⌊q⌋ else ⌈q⌉

/-- Resolve a Python list subscript of an `n`-element list at integer `i`:
`some j` with the effective non-negative position, or `none` when the
subscript would raise `IndexError`. -/
def pyIndex (n : ℕ) (i : ℤ) : Option ℕ :=
  if 0 ≤ i then
    if i < (n : ℤ) then some i.toNat else none
  else
    if 0 ≤ i + (n : ℤ) then some (i + (n : ℤ)).toNat else none

/-- Python `l[i]` on a list with an arbitrary integer subscript
(negative indices count from the end; out-of-range raises). -/
def pyListGet (l : List Item) (i : ℤ) : Except Unit Item :=
  match pyIndex l.length i with
  | some j =>
    match l[j]? with
    | some x => Except.ok x
    | none => Except.error ()
  | none => Except.error ()

/-- `database.get_playback_state` (src/database.py lines 171-173): the
row with id 1. -/
def get_playback_state (db : DB) : Option PlaybackRecord :=
  db.playback

/-- `database.get_active_timeline` (src/database.py lines 132-134):
first stored timeline whose `is_active` flag is set. -/
def get_active_timeline (db : DB) : Option TimelineRec :=
  db.timelines.find? (fun r => r.is_active)

/-- `database.update_playback_state` (src/database.py lines 176-184) at
the fields `PlaybackManager.save_state_to_db` passes: updates the
singleton row if it exists (and stamps `updated_at`), otherwise does
nothing. -/
def update_playback_state (db : DB) (tid : Option ℕ) (idx tc : ℤ)
    (playing : Bool) (t : ℚ) : DB :=
  match db.playback with
  | none => db
  | some _ =>
    let row : PlaybackRecord :=
      { timeline_id := tid, current_index := idx, timecode_ms := tc,
        is_playing := playing, updated_at := pyTrunc t }
    { db with playback := some row }

/-- Fresh autoincrement id for a new timeline row. -/
def nextTimelineId (db : DB) : ℕ :=
  (db.timelines.map (fun r => r.id)).foldr max 0 + 1

/-- `database.create_timeline` (src/database.py lines 124-129): inserts
the given row (with a fresh id) and returns it.  Note: it performs no
deactivation of any previously active timeline. -/
def create_timeline (db : DB) (name : String) (tj : TimelineData)
    (theme : String) (created updated : ℤ) (active : Bool)
    (notes : Option String) : TimelineRec × DB :=
  let row : TimelineRec :=
    { id := nextTimelineId db, name := name, timeline_json := tj,
      theme_id := theme, created_at := created, updated_at := updated,
      is_active := active, notes := notes }
  (row, { db with timelines := db.timelines ++ [row] })

/-- `database.update_timeline` (src/database.py lines 142-149): applies
the given field updates (the `setattr` loop) to the row with the given
id, if present.  Note: it too performs no deactivation of other rows. -/
def update_timeline (db : DB) (tid : ℕ) (f : TimelineRec → TimelineRec) : DB :=
  { db with timelines := db.timelines.map (fun r => if r.id = tid then f r else r) }

/-- The `PlaybackManager.__init__` state (src/playback.py lines 14-23). -/
def initPM : PM :=
  { current_timeline := none, current_index := 0, timecode_ms := 0,
    is_playing := false, playback_start_time := none,
    initial_offset_ms := 0, state := MachineState.IDLE }

/-- `PlaybackManager.load_state_from_db` (src/playback.py lines 33-45):
copies the persisted `current_index`, `timecode_ms` and `is_playing`
verbatim, then loads the referenced timeline if it still exists.  The
database is only read. -/
def load_state_from_db (pm : PM) (db : DB) : PM :=
  match get_playback_state db with
  | none => pm
  | some r =>
    let pm1 := { pm with current_index := r.current_index,
                         timecode_ms := r.timecode_ms,
                         is_playing := r.is_playing }
    match r.timeline_id with
    | none => pm1
    | some tid =>
      match db.timelines.find? (fun row => row.id == tid) with
      | none => pm1
      | some row => { pm1 with current_timeline := some row.timeline_json }

/-- `PlaybackManager.save_state_to_db` (src/playback.py lines 47-61). -/
def save_state_to_db (pm : PM) (db : DB) (t : ℚ) : DB :=
  let tid : Option ℕ :=
    match pm.current_timeline with
    | none => none
    | some _ =>
      match get_active_timeline db with
      | none => none
      | some active => some active.id
  update_playback_state db tid pm.current_index pm.timecode_ms pm.is_playing t

/-- `PlaybackManager.get_current_timecode` (src/playback.py lines
160-170): the frozen `timecode_ms` unless playing with a start-time
anchor, in which case `int(initial_offset_ms + (now_ms - start))`. -/
def get_current_timecode (pm : PM) (t : ℚ) : ℤ :=
  match pm.is_playing, pm.playback_start_time with
  | true, some s => pyTrunc ((pm.initial_offset_ms : ℚ) + (t * 1000 - s))
  | _, _ => pm.timecode_ms

/-- `PlaybackManager.load_timeline` (src/playback.py lines 63-82) on an
already-decoded timeline payload. -/
def load_timeline (pm : PM) (db : DB) (t : ℚ) (td : TimelineData) : PM × DB :=
  let pm1 := { pm with current_timeline := some td, current_index := 0,
                       timecode_ms := 0, is_playing := false,
                       state := MachineState.LOADING }
  (pm1, save_state_to_db pm1 db t)

/-- `PlaybackManager.play` (src/playback.py lines 84-107).  Note the
source order: when an index is given, `current_index` and `timecode_ms`
are assigned *before* any validity check. -/
def play (pm : PM) (db : DB) (t : ℚ) (index : Option ℤ) : Bool × PM × DB :=
  let pm1 :=
    match index with
    | some i => { pm with current_index := i, timecode_ms := 0 }
    | none => pm
  match pm1.current_timeline with
  | none => (false, pm1, db)
  | some tl =>
    if tl.items.isEmpty then (false, pm1, db)
    else if (tl.items.length : ℤ) ≤ pm1.current_index then (false, pm1, db)
    else
      let pm2 := { pm1 with playback_start_time := some (t * 1000),
                            initial_offset_ms := pm1.timecode_ms,
                            is_playing := true,
                            state := MachineState.PLAYING }
      (true, pm2, save_state_to_db pm2 db t)

/-- `PlaybackManager.pause` (src/playback.py lines 109-120): a no-op
when not playing; otherwise freezes the live timecode, clears the
anchor and persists. -/
def pause (pm : PM) (db : DB) (t : ℚ) : PM × DB :=
  if pm.is_playing then
    let pm1 := { pm with timecode_ms := get_current_timecode pm t,
                         is_playing := false,
                         state := MachineState.PAUSED,
                         playback_start_time := none }
    (pm1, save_state_to_db pm1 db t)
  else (pm, db)

/-- `PlaybackManager.jump` (src/playback.py lines 122-144). -/
def jump (pm : PM) (db : DB) (t : ℚ) (index : ℤ) : Bool × PM × DB :=
  match pm.current_timeline with
  | none => (false, pm, db)
  | some tl =>
    if tl.items.isEmpty then (false, pm, db)
    else if index < 0 ∨ (tl.items.length : ℤ) ≤ index then (false, pm, db)
    else
      let was := pm.is_playing
      let pd := pause pm db t
      let pm2 := { pd.1 with current_index := index, timecode_ms := 0 }
      if was then
        let r := play pm2 pd.2 t none
        (true, r.2.1, r.2.2)
      else
        let pm3 := { pm2 with state := MachineState.LOADING }
        (true, pm3, save_state_to_db pm3 pd.2 t)

/-- `PlaybackManager.skip` (src/playback.py lines 146-158): clamps
`current_index + delta` into range and delegates to `jump`. -/
def skip (pm : PM) (db : DB) (t : ℚ) (delta : ℤ) : Bool × PM × DB :=
  match pm.current_timeline with
  | none => (false, pm, db)
  | some tl =>
    if tl.items.isEmpty then (false, pm, db)
    else
      let n := pm.current_index + delta
      let nc : ℤ :=
        if n < 0 then 0
        else if (tl.items.length : ℤ) ≤ n then (tl.items.length : ℤ) - 1
        else n
      jump pm db t nc

/-- `PlaybackManager.get_current_item` (src/playback.py lines 172-180):
the guard only tests `current_index < len(items)`, so a negative index
falls through to a Python subscript with its negative-index semantics. -/
def get_current_item (pm : PM) : Except Unit (Option Item) :=
  match pm.current_timeline with
  | none => Except.ok none
  | some tl =>
    if tl.items.isEmpty then Except.ok none
    else if pm.current_index < (tl.items.length : ℤ) then
      (pyListGet tl.items pm.current_index).map some
    else Except.ok none

/-- The `SHOW_STATUS` handler (src/routes/websocket.py lines 122-128):
when the payload carries a `timecodeMs` value it is written straight
into the manager's `timecode_ms` attribute; nothing is persisted. -/
def on_show_status (pm : PM) (hint : Option ℤ) : PM :=
  match hint with
  | none => pm
  | some h => { pm with timecode_ms := h }

/-! ## Concrete fixtures used by witnesses and counterexamples -/

/-- A three-item timeline, as in the spec's scenarios. -/
def demoTimeline : TimelineData := { name := "T", items := ["a", "b", "c"] }

/-- A database whose singleton playback row has been seeded by `init_db`. -/
def seededDB : DB :=
  { playback := some { timeline_id := none, current_index := 0, timecode_ms := 0,
                       is_playing := false, updated_at := 0 },
    timelines := [] }

/-- The manager right after `load_timeline(demoTimeline)` on a fresh process. -/
def loadedPM : PM := (load_timeline initPM seededDB 0 demoTimeline).1

/-- The database right after that `load_timeline` call. -/
def loadedDB : DB := (load_timeline initPM seededDB 0 demoTimeline).2

/-- A database whose persisted playback row says `is_playing = true`
(index 2, timecode 5 ms), as left behind by a crash during playback. -/
def playingDB : DB :=
  { playback := some { timeline_id := none, current_index := 2, timecode_ms := 5,
                       is_playing := true, updated_at := 0 },
    timelines := [] }

/-- A database with no rows at all. -/
def emptyDB : DB := { playback := none, timelines := [] }

/-! ## Helper lemmas -/

/-- Truncation toward zero is monotone. -/
lemma pyTrunc_mono {a b : ℚ} (h : a ≤ b) : pyTrunc a ≤ pyTrunc b := by
  unfold pyTrunc
  by_cases ha : 0 ≤ a
  · rw [if_pos ha, if_pos (le_trans ha h)]
    exact Int.floor_le_floor h
  · rw [if_neg ha]
    by_cases hb : 0 ≤ b
    · rw [if_pos hb]
      calc ⌈a⌉ ≤ 0 := Int.ceil_le.mpr (by exact_mod_cast le_of_lt (lt_of_not_le ha))
        _ ≤ ⌊b⌋ := Int.floor_nonneg.mpr hb
    · rw [if_neg hb]
      exact Int.ceil_le_ceil h

/-- The persisted row agrees with the in-memory playback fields. -/
def dbMatches (pm : PM) (db : DB) : Prop :=
  ∃ r, db.playback = some r ∧ r.current_index = pm.current_index ∧
       r.timecode_ms = pm.timecode_ms ∧ r.is_playing = pm.is_playing

/-- When the singleton row exists, `save_state_to_db` overwrites it with
the in-memory fields. -/
lemma save_playback_some (pm : PM) (db : DB) (t : ℚ) (r : PlaybackRecord)
    (h : db.playback = some r) :
    ∃ tid, (save_state_to_db pm db t).playback =
      some { timeline_id := tid, current_index := pm.current_index,
             timecode_ms := pm.timecode_ms, is_playing := pm.is_playing,
             updated_at := pyTrunc t } := by
  unfold save_state_to_db update_playback_state
  rw [h]
  exact ⟨_, rfl⟩

/-- Saving establishes the memory/record agreement. -/
lemma save_matches (pm : PM) (db : DB) (t : ℚ) (h : db.playback.isSome = true) :
    dbMatches pm (save_state_to_db pm db t) := by
  obtain ⟨r, hr⟩ := Option.isSome_iff_exists.mp h
  obtain ⟨tid, htid⟩ := save_playback_some pm db t r hr
  exact ⟨_, htid, rfl, rfl, rfl⟩

/-- Saving never deletes the singleton row. -/
lemma save_isSome (pm : PM) (db : DB) (t : ℚ) :
    (save_state_to_db pm db t).playback.isSome = db.playback.isSome := by
  unfold save_state_to_db update_playback_state
  cases h : db.playback <;> simp [h]

/-- `pause` is a no-op when not playing. -/
lemma pause_not_playing (pm : PM) (db : DB) (t : ℚ) (h : pm.is_playing = false) :
    pause pm db t = (pm, db) := by
  unfold pause
  rw [h]
  rfl

/-- Shape of `pause` when playing: freeze the timecode, clear the anchor,
persist. -/
lemma pause_playing (pm : PM) (db : DB) (t : ℚ) (h : pm.is_playing = true) :
    pause pm db t =
      ({ pm with timecode_ms := get_current_timecode pm t, is_playing := false,
                 state := MachineState.PAUSED, playback_start_time := none },
       save_state_to_db
         { pm with timecode_ms := get_current_timecode pm t, is_playing := false,
                   state := MachineState.PAUSED, playback_start_time := none } db t) := by
  unfold pause
  rw [h]
  rfl

/-- Shape of a successful `play()` with no index argument. -/
lemma play_none_eq (pm : PM) (db : DB) (t : ℚ) (tl : TimelineData)
    (hT : pm.current_timeline = some tl) (hne : tl.items.isEmpty = false)
    (h1 : pm.current_index < (tl.items.length : ℤ)) :
    play pm db t none =
      (true,
       { pm with playback_start_time := some (t * 1000),
                 initial_offset_ms := pm.timecode_ms, is_playing := true,
                 state := MachineState.PLAYING },
       save_state_to_db
         { pm with playback_start_time := some (t * 1000),
                   initial_offset_ms := pm.timecode_ms, is_playing := true,
                   state := MachineState.PLAYING } db t) := by
  unfold play
  simp only [hT]
  rw [if_neg (by simp [hne]), if_neg (not_le.mpr h1)]

/-- Post-state of a successful in-bounds `jump`: it reports success, lands
on the requested index with a zeroed timecode, preserves the playing flag,
and (when the singleton row exists) leaves the row in sync with memory. -/
lemma jump_post (pm : PM) (db : DB) (t : ℚ) (i : ℤ) (tl : TimelineData)
    (hT : pm.current_timeline = some tl) (hne : tl.items ≠ [])
    (h0 : 0 ≤ i) (h1 : i < (tl.items.length : ℤ)) :
    (jump pm db t i).1 = true ∧
    (jump pm db t i).2.1.current_index = i ∧
    (jump pm db t i).2.1.timecode_ms = 0 ∧
    (jump pm db t i).2.1.is_playing = pm.is_playing ∧
    (db.playback.isSome = true → dbMatches (jump pm db t i).2.1 (jump pm db t i).2.2) := by
  have hne' : tl.items.isEmpty = false := by
    simp [List.isEmpty_iff, hne]
  have h0' : ¬ i < 0 := not_lt.mpr h0
  have h1' : ¬ (tl.items.length : ℤ) ≤ i := not_le.mpr h1
  cases hp : pm.is_playing with
  | false =>
    refine ⟨?_, ?_, ?_, ?_, ?_⟩
    · simp [jump, pause, hT, hne', hp, h0', h1']
    · simp [jump, pause, hT, hne', hp, h0', h1']
    · simp [jump, pause, hT, hne', hp, h0', h1']
    · simp [jump, pause, hT, hne', hp, h0', h1']
    · intro hs
      obtain ⟨r0, hr0⟩ := Option.isSome_iff_exists.mp hs
      simp [jump, pause, save_state_to_db, update_playback_state, dbMatches,
            hT, hne', hp, h0', h1', hr0]
  | true =>
    refine ⟨?_, ?_, ?_, ?_, ?_⟩
    · simp [jump, pause, play, hT, hne', hp, h0', h1']
    · simp [jump, pause, play, hT, hne', hp, h0', h1']
    · simp [jump, pause, play, hT, hne', hp, h0', h1']
    · simp [jump, pause, play, hT, hne', hp, h0', h1']
    · intro hs
      obtain ⟨r0, hr0⟩ := Option.isSome_iff_exists.mp hs
      simp [jump, pause, play, save_state_to_db, update_playback_state, dbMatches,
            hT, hne', hp, h0', h1', hr0]

/-- A `jump` can only report success when a non-empty timeline is loaded
and the requested index is strictly in bounds. -/
lemma jump_ok_inv (pm : PM) (db : DB) (t : ℚ) (i : ℤ)
    (h : (jump pm db t i).1 = true) :
    ∃ tl, pm.current_timeline = some tl ∧ tl.items ≠ [] ∧
      0 ≤ i ∧ i < (tl.items.length : ℤ) := by
  cases hct : pm.current_timeline with
  | none => simp [jump, hct] at h
  | some tl =>
    by_cases he : tl.items.isEmpty
    · simp [jump, hct, he] at h
    · by_cases hbd : i < 0 ∨ (tl.items.length : ℤ) ≤ i
      · simp [jump, hct, he, hbd] at h
      · push_neg at hbd
        exact ⟨tl, rfl, by simpa [List.isEmpty_iff] using he, hbd.1, hbd.2⟩

/-- A successful `jump` leaves the persisted row in sync with memory. -/
lemma jump_matches (pm : PM) (db : DB) (t : ℚ) (i : ℤ)
    (hs : db.playback.isSome = true) (h : (jump pm db t i).1 = true) :
    dbMatches (jump pm db t i).2.1 (jump pm db t i).2.2 := by
  obtain ⟨tl, hT, hne, h0, h1⟩ := jump_ok_inv pm db t i h
  exact (jump_post pm db t i tl hT hne h0 h1).2.2.2.2 hs

/-- A successful `skip` leaves the persisted row in sync with memory. -/
lemma skip_matches (pm : PM) (db : DB) (t : ℚ) (d : ℤ)
    (hs : db.playback.isSome = true) (h : (skip pm db t d).1 = true) :
    dbMatches (skip pm db t d).2.1 (skip pm db t d).2.2 := by
  cases hct : pm.current_timeline with
  | none => simp [skip, hct] at h
  | some tl =>
    by_cases he : tl.items.isEmpty
    · simp [skip, hct, he] at h
    · simp only [skip, hct, he, Bool.false_eq_true, if_false] at h ⊢
      exact jump_matches _ _ _ _ hs h

/-- A successful `play` leaves the persisted row in sync with memory. -/
lemma play_matches (pm : PM) (db : DB) (t : ℚ) (idx : Option ℤ)
    (hs : db.playback.isSome = true) (h : (play pm db t idx).1 = true) :
    dbMatches (play pm db t idx).2.1 (play pm db t idx).2.2 := by
  obtain ⟨r0, hr0⟩ := Option.isSome_iff_exists.mp hs
  rcases idx with _ | i
  · cases hct : pm.current_timeline with
    | none => simp [play, hct] at h
    | some tl =>
      by_cases he : tl.items.isEmpty
      · simp [play, hct, he] at h
      · by_cases hb : (tl.items.length : ℤ) ≤ pm.current_index
        · simp [play, hct, he, hb] at h
        · simp [play, save_state_to_db, update_playback_state, dbMatches,
                hct, he, hb, hr0]
  · cases hct : pm.current_timeline with
    | none => simp [play, hct] at h
    | some tl =>
      by_cases he : tl.items.isEmpty
      · simp [play, hct, he] at h
      · by_cases hb : (tl.items.length : ℤ) ≤ i
        · simp [play, hct, he, hb] at h
        · simp [play, save_state_to_db, update_playback_state, dbMatches,
                hct, he, hb, hr0]

/-- `load_timeline` persists the freshly reset fields. -/
lemma load_timeline_matches (pm : PM) (db : DB) (t : ℚ) (td : TimelineData)
    (hs : db.playback.isSome = true) :
    dbMatches (load_timeline pm db t td).1 (load_timeline pm db t td).2 := by
  obtain ⟨r0, hr0⟩ := Option.isSome_iff_exists.mp hs
  simp [load_timeline, save_state_to_db, update_playback_state, dbMatches, hr0]

/-- `pause` while playing persists the frozen fields. -/
lemma pause_matches (pm : PM) (db : DB) (t : ℚ)
    (hs : db.playback.isSome = true) (hp : pm.is_playing = true) :
    dbMatches (pause pm db t).1 (pause pm db t).2 := by
  rw [pause_playing pm db t hp]
  exact save_matches _ _ _ hs

/-- Rehydration copies the persisted transport fields verbatim and never
touches the start-time anchor or the initial offset. -/
lemma load_state_fields (pm : PM) (db : DB) (r : PlaybackRecord)
    (h : db.playback = some r) :
    (load_state_from_db pm db).current_index = r.current_index ∧
    (load_state_from_db pm db).timecode_ms = r.timecode_ms ∧
    (load_state_from_db pm db).is_playing = r.is_playing ∧
    (load_state_from_db pm db).playback_start_time = pm.playback_start_time ∧
    (load_state_from_db pm db).initial_offset_ms = pm.initial_offset_ms := by
  cases htid : r.timeline_id with
  | none => simp [load_state_from_db, get_playback_state, h, htid]
  | some tid =>
    cases hf : db.timelines.find? (fun row => row.id == tid) with
    | none => simp [load_state_from_db, get_playback_state, h, htid, hf]
    | some row => simp [load_state_from_db, get_playback_state, h, htid, hf]

/-- The loaded manager sitting at index 1 of the three-item timeline. -/
def pmAt1 : PM := { loadedPM with current_index := 1 }

/-- A playing manager with a start-time anchor at 0 ms and a 7 ms offset. -/
def anchoredPM : PM :=
  { loadedPM with is_playing := true, playback_start_time := some 0,
                  initial_offset_ms := 7 }

/-- A manager claiming to be playing but holding no start-time anchor, as
produced by rehydrating a persisted `is_playing = true` row. -/
def unanchoredPM : PM := { loadedPM with is_playing := true }

/-! ## Claim theorems -/

/-- C3: for every state with a loaded non-empty timeline and an in-range
`currentIndex`, `skip(delta)` succeeds for every integer `delta` and leaves
`currentIndex` equal to `currentIndex + delta` clamped into
`[0, len(items)-1]`. -/
theorem skip_clamps (pm : PM) (db : DB) (t : ℚ) (d : ℤ) (tl : TimelineData)
    (hT : pm.current_timeline = some tl) (hne : tl.items ≠ [])
    (h0 : 0 ≤ pm.current_index) (h1 : pm.current_index < (tl.items.length : ℤ)) :
    (skip pm db t d).1 = true ∧
    (skip pm db t d).2.1.current_index =
      max 0 (min (pm.current_index + d) ((tl.items.length : ℤ) - 1)) := by
  have hne' : tl.items.isEmpty = false := by simp [List.isEmpty_iff, hne]
  have hlen : 0 < tl.items.length := List.length_pos.mpr hne
  have hskip : skip pm db t d = jump pm db t
      (if pm.current_index + d < 0 then 0
       else if (tl.items.length : ℤ) ≤ pm.current_index + d then (tl.items.length : ℤ) - 1
       else pm.current_index + d) := by
    simp only [skip, hT, hne', Bool.false_eq_true, if_false]
  set nc := (if pm.current_index + d < 0 then (0 : ℤ)
       else if (tl.items.length : ℤ) ≤ pm.current_index + d then (tl.items.length : ℤ) - 1
       else pm.current_index + d) with hnc
  have hnc0 : 0 ≤ nc := by
    rw [hnc]; split
    · omega
    · split <;> omega
  have hnc1 : nc < (tl.items.length : ℤ) := by
    rw [hnc]; split
    · omega
    · split <;> omega
  obtain ⟨ha, hb, _, _, _⟩ := jump_post pm db t nc tl hT hne hnc0 hnc1
  rw [hskip]
  refine ⟨ha, ?_⟩
  rw [hb, hnc]
  rcases lt_or_le (pm.current_index + d) 0 with hc | hc
  · rw [if_pos hc]; omega
  · rw [if_neg (not_lt.mpr hc)]
    rcases le_or_lt (tl.items.length : ℤ) (pm.current_index + d) with hd | hd
    · rw [if_pos hd]; omega
    · rw [if_neg (not_le.mpr hd)]; omega

/-- C3 witness: Scenario C — `skip(-10)` on the three-item timeline at
index 1 succeeds and lands on index 0. -/
theorem skip_clamps_witness :
    pmAt1.current_timeline = some demoTimeline ∧ demoTimeline.items ≠ [] ∧
    0 ≤ pmAt1.current_index ∧
    pmAt1.current_index < (demoTimeline.items.length : ℤ) ∧
    ((skip pmAt1 loadedDB 0 (-10)).1 = true ∧
     (skip pmAt1 loadedDB 0 (-10)).2.1.current_index =
       max 0 (min (pmAt1.current_index + (-10)) ((demoTimeline.items.length : ℤ) - 1))) :=
  ⟨rfl, by decide, by decide, by decide,
   skip_clamps pmAt1 loadedDB 0 (-10) demoTimeline rfl (by decide) (by decide) (by decide)⟩

/-- C4: for a loaded non-empty timeline and `0 ≤ index < len(items)`,
`jump(index)` succeeds, sets `currentIndex = index` and `timecodeMs = 0`,
and preserves the prior `isPlaying`; for any out-of-bounds index, or with
no timeline loaded, it fails (the code reports failure by returning false,
which the spec labels `IndexOutOfRange`). -/
theorem jump_spec (pm : PM) (db : DB) (t : ℚ) (i : ℤ) :
    (∀ tl, pm.current_timeline = some tl → tl.items ≠ [] →
       0 ≤ i → i < (tl.items.length : ℤ) →
       (jump pm db t i).1 = true ∧
       (jump pm db t i).2.1.current_index = i ∧
       (jump pm db t i).2.1.timecode_ms = 0 ∧
       (jump pm db t i).2.1.is_playing = pm.is_playing) ∧
    (∀ tl, pm.current_timeline = some tl →
       (i < 0 ∨ (tl.items.length : ℤ) ≤ i) → (jump pm db t i).1 = false) ∧
    (pm.current_timeline = none → (jump pm db t i).1 = false) := by
  refine ⟨?_, ?_, ?_⟩
  · intro tl hT hne h0 h1
    obtain ⟨a, b, c, d, _⟩ := jump_post pm db t i tl hT hne h0 h1
    exact ⟨a, b, c, d⟩
  · intro tl hT hbd
    by_cases he : tl.items.isEmpty
    · simp [jump, hT, he]
    · simp [jump, hT, he, hbd]
  · intro h
    simp [jump, h]

/-- C4 witness: `jump(2)` on the loaded three-item timeline succeeds,
lands on index 2 with timecode 0 and keeps the paused flag. -/
theorem jump_spec_witness :
    loadedPM.current_timeline = some demoTimeline ∧ demoTimeline.items ≠ [] ∧
    (0 : ℤ) ≤ 2 ∧ (2 : ℤ) < (demoTimeline.items.length : ℤ) ∧
    ((jump loadedPM loadedDB 0 2).1 = true ∧
     (jump loadedPM loadedDB 0 2).2.1.current_index = 2 ∧
     (jump loadedPM loadedDB 0 2).2.1.timecode_ms = 0 ∧
     (jump loadedPM loadedDB 0 2).2.1.is_playing = loadedPM.is_playing) :=
  ⟨rfl, by decide, by decide, by decide,
   (jump_spec loadedPM loadedDB 0 2).1 demoTimeline rfl (by decide) (by decide) (by decide)⟩

/-- C5: `getCurrentTimecode` returns the frozen `timecodeMs` when not
playing; when playing with a start-time anchor it returns
`initialOffsetMs + (now*1000 - playbackStartTime)` truncated to an
integer; and for a fixed state (no intervening mutation) it is monotone
non-decreasing in the clock.  The read is a pure function of the state:
it returns a value and no updated state, mirroring the source, which
assigns nothing. -/
theorem get_current_timecode_spec (pm : PM) (t t1 t2 s : ℚ) :
    (pm.is_playing = false → get_current_timecode pm t = pm.timecode_ms) ∧
    (pm.is_playing = true → pm.playback_start_time = some s →
       get_current_timecode pm t =
         pyTrunc ((pm.initial_offset_ms : ℚ) + (t * 1000 - s))) ∧
    (t1 ≤ t2 → get_current_timecode pm t1 ≤ get_current_timecode pm t2) := by
  refine ⟨?_, ?_, ?_⟩
  · intro h
    simp [get_current_timecode, h]
  · intro h1 h2
    simp [get_current_timecode, h1, h2]
  · intro hle
    unfold get_current_timecode
    cases hp : pm.is_playing
    · simp
    · cases hst : pm.playback_start_time
      · simp
      · simp only []
        apply pyTrunc_mono
        have h1000 : t1 * 1000 ≤ t2 * 1000 := by linarith
        linarith

/-- C5 witness: a playing state anchored at 0 ms with offset 7, read at
`now = 1` second. -/
theorem get_current_timecode_spec_witness :
    anchoredPM.is_playing = true ∧ anchoredPM.playback_start_time = some 0 ∧
    get_current_timecode anchoredPM 1 =
      pyTrunc ((anchoredPM.initial_offset_ms : ℚ) + (1 * 1000 - 0)) :=
  ⟨rfl, rfl, (get_current_timecode_spec anchoredPM 1 0 0 0).2.1 rfl rfl⟩

/-- C10: whenever the start-time anchor is absent, `getCurrentTimecode`
is total and returns the frozen `timecodeMs`, even with `isPlaying`
true; in particular a state rehydrated from any persisted row (including
one with `is_playing = true`) has no anchor and reads back the persisted
timecode. -/
theorem timecode_without_anchor (pm : PM) (db : DB) (t : ℚ) (r : PlaybackRecord) :
    (pm.playback_start_time = none → get_current_timecode pm t = pm.timecode_ms) ∧
    (db.playback = some r →
       (load_state_from_db initPM db).playback_start_time = none ∧
       get_current_timecode (load_state_from_db initPM db) t = r.timecode_ms) := by
  refine ⟨?_, ?_⟩
  · intro h
    unfold get_current_timecode
    cases hp : pm.is_playing <;> simp [h]
  · intro h
    obtain ⟨_, h2, _, h4, _⟩ := load_state_fields initPM db r h
    have hanchor : (load_state_from_db initPM db).playback_start_time = none := by
      rw [h4]; rfl
    refine ⟨hanchor, ?_⟩
    unfold get_current_timecode
    cases hp : (load_state_from_db initPM db).is_playing <;> simp [hanchor, h2]

/-- C10 witness: the rehydrated-from-`playingDB` state (persisted
`is_playing = true`) has no anchor and reads timecode 5; likewise a
directly constructed anchor-free playing state reads its frozen field. -/
theorem timecode_without_anchor_witness :
    unanchoredPM.playback_start_time = none ∧
    get_current_timecode unanchoredPM 5 = unanchoredPM.timecode_ms ∧
    playingDB.playback = some { timeline_id := none, current_index := 2,
                                timecode_ms := 5, is_playing := true,
                                updated_at := 0 } ∧
    (load_state_from_db initPM playingDB).playback_start_time = none ∧
    get_current_timecode (load_state_from_db initPM playingDB) 5 = 5 :=
  ⟨rfl,
   (timecode_without_anchor unanchoredPM playingDB 5
     { timeline_id := none, current_index := 2, timecode_ms := 5,
       is_playing := true, updated_at := 0 }).1 rfl,
   rfl,
   ((timecode_without_anchor unanchoredPM playingDB 5
     { timeline_id := none, current_index := 2, timecode_ms := 5,
       is_playing := true, updated_at := 0 }).2 rfl).1,
   ((timecode_without_anchor unanchoredPM playingDB 5
     { timeline_id := none, current_index := 2, timecode_ms := 5,
       is_playing := true, updated_at := 0 }).2 rfl).2⟩

/-- C1 counterexample: `play(index=5)` on the loaded three-item timeline
returns failure, yet the state is NOT unchanged — `currentIndex` was 0
before the call and is 5 (out of bounds) afterwards, because the source
assigns `current_index` and `timecode_ms` before its bounds check. -/
theorem play_oob_counterexample :
    (play loadedPM loadedDB 0 (some 5)).1 = false ∧
    loadedPM.current_index = 0 ∧
    (play loadedPM loadedDB 0 (some 5)).2.1.current_index = 5 ∧
    (play loadedPM loadedDB 0 (some 5)).2.1 ≠ loadedPM := by
  refine ⟨by decide, by decide, by decide, by decide⟩

/-- C1 amended: with a loaded non-empty timeline, `play(index)` with
`index ≥ len(items)` returns failure without persisting, but first
mutates the state: `currentIndex` becomes `index` and `timecodeMs`
becomes 0 (everything else is untouched); and `play(index)` with a
negative index is not rejected at all — it starts playback at the
negative index. -/
theorem play_oob_mutates (pm : PM) (db : DB) (t : ℚ) (i : ℤ) (tl : TimelineData)
    (hT : pm.current_timeline = some tl) (hne : tl.items ≠ []) :
    ((tl.items.length : ℤ) ≤ i →
       play pm db t (some i) =
         (false, { pm with current_index := i, timecode_ms := 0 }, db)) ∧
    (i < 0 →
       (play pm db t (some i)).1 = true ∧
       (play pm db t (some i)).2.1.current_index = i ∧
       (play pm db t (some i)).2.1.is_playing = true) := by
  have hne' : tl.items.isEmpty = false := by simp [List.isEmpty_iff, hne]
  refine ⟨?_, ?_⟩
  · intro hge
    simp [play, hT, hne', hge]
  · intro hneg
    have hlt : ¬ (tl.items.length : ℤ) ≤ i := by omega
    refine ⟨?_, ?_, ?_⟩ <;> simp [play, hT, hne', hlt]

/-- C1 witness: the failing branch evaluated on the three-item timeline at
index 5. -/
theorem play_oob_mutates_witness :
    loadedPM.current_timeline = some demoTimeline ∧ demoTimeline.items ≠ [] ∧
    (demoTimeline.items.length : ℤ) ≤ 5 ∧
    play loadedPM loadedDB 0 (some 5) =
      (false, { loadedPM with current_index := 5, timecode_ms := 0 }, loadedDB) :=
  ⟨rfl, by decide, by decide,
   (play_oob_mutates loadedPM loadedDB 0 5 demoTimeline rfl (by decide)).1 (by decide)⟩

/-- C2 counterexample: rehydrating from a persisted row whose
`is_playing` flag is true leaves the machine with `isPlaying = true`,
not false — `load_state_from_db` copies the flag verbatim (src/playback.py
line 39) and never forces a paused state. -/
theorem rehydrate_counterexample :
    (load_state_from_db initPM playingDB).is_playing = true ∧
    ¬ (load_state_from_db initPM playingDB).is_playing = false := by
  refine ⟨by decide, by decide⟩

/-- C2 amended: rehydration copies the persisted `currentIndex`,
`timecodeMs` and `isPlaying` into memory verbatim (the persisted flag is
NOT forced to false; it is advisory only in the weaker sense that no
start-time anchor is restored, so the timecode does not advance — see the
C10 theorem).  The `loadTimeline`-then-rehydrate round trip does yield
`currentIndex = 0`, `timecodeMs = 0`, `isPlaying = false`, because
`load_timeline` persists exactly those values. -/
theorem rehydrate_copies_fields (pm : PM) (db : DB) (r : PlaybackRecord)
    (t : ℚ) (td : TimelineData) (h : db.playback = some r) :
    ((load_state_from_db pm db).current_index = r.current_index ∧
     (load_state_from_db pm db).timecode_ms = r.timecode_ms ∧
     (load_state_from_db pm db).is_playing = r.is_playing) ∧
    ((load_state_from_db initPM (load_timeline pm db t td).2).current_index = 0 ∧
     (load_state_from_db initPM (load_timeline pm db t td).2).timecode_ms = 0 ∧
     (load_state_from_db initPM (load_timeline pm db t td).2).is_playing = false) := by
  obtain ⟨h1, h2, h3, _, _⟩ := load_state_fields pm db r h
  refine ⟨⟨h1, h2, h3⟩, ?_⟩
  have hsave : (load_timeline pm db t td).2 =
      save_state_to_db (load_timeline pm db t td).1 db t := rfl
  obtain ⟨tid, htid⟩ :=
    save_playback_some (load_timeline pm db t td).1 db t r h
  rw [hsave] at *
  obtain ⟨g1, g2, g3, _, _⟩ :=
    load_state_fields initPM (save_state_to_db (load_timeline pm db t td).1 db t)
      { timeline_id := tid,
        current_index := (load_timeline pm db t td).1.current_index,
        timecode_ms := (load_timeline pm db t td).1.timecode_ms,
        is_playing := (load_timeline pm db t td).1.is_playing,
        updated_at := pyTrunc t } htid
  exact ⟨g1, g2, g3⟩

/-- C2 witness: rehydration from `playingDB` reproduces its row
(index 2, timecode 5, playing), and the round trip through
`load_timeline` lands at `(0, 0, false)`. -/
theorem rehydrate_copies_fields_witness :
    playingDB.playback = some { timeline_id := none, current_index := 2,
                                timecode_ms := 5, is_playing := true,
                                updated_at := 0 } ∧
    (((load_state_from_db initPM playingDB).current_index = 2 ∧
      (load_state_from_db initPM playingDB).timecode_ms = 5 ∧
      (load_state_from_db initPM playingDB).is_playing = true) ∧
     ((load_state_from_db initPM (load_timeline initPM playingDB 0 demoTimeline).2).current_index = 0 ∧
      (load_state_from_db initPM (load_timeline initPM playingDB 0 demoTimeline).2).timecode_ms = 0 ∧
      (load_state_from_db initPM (load_timeline initPM playingDB 0 demoTimeline).2).is_playing = false)) :=
  ⟨rfl,
   rehydrate_copies_fields initPM playingDB
     { timeline_id := none, current_index := 2, timecode_ms := 5,
       is_playing := true, updated_at := 0 } 0 demoTimeline rfl⟩

/-- C6 counterexample: from the loaded three-item timeline, `play(-1)`
succeeds (reaching a state with `currentIndex = -1`), and there
`getCurrentItem` returns the LAST item `"c"` (Python negative indexing),
not none as the claim requires for an out-of-bounds (negative) index. -/
theorem get_current_item_negative_counterexample :
    (play loadedPM loadedDB 0 (some (-1))).1 = true ∧
    get_current_item (play loadedPM loadedDB 0 (some (-1))).2.1 =
      Except.ok (some "c") ∧
    get_current_item (play loadedPM loadedDB 0 (some (-1))).2.1 ≠
      Except.ok none := by
  have hval : get_current_item (play loadedPM loadedDB 0 (some (-1))).2.1 =
      Except.ok (some "c") := rfl
  refine ⟨by decide, hval, ?_⟩
  rw [hval]
  simp

/-- C6 amended: `getCurrentItem` returns the item at `currentIndex` when
`0 ≤ currentIndex < len(items)` and none when no timeline is loaded, the
items are empty, or `currentIndex ≥ len(items)`; but for a negative
`currentIndex` it follows Python subscript semantics — the item at
`currentIndex + len(items)` when that is in range, and an uncaught
`IndexError` when `currentIndex < -len(items)` on a non-empty timeline. -/
theorem get_current_item_spec (pm : PM) :
    (pm.current_timeline = none → get_current_item pm = Except.ok none) ∧
    (∀ tl, pm.current_timeline = some tl →
      (tl.items = [] → get_current_item pm = Except.ok none) ∧
      (0 ≤ pm.current_index → pm.current_index < (tl.items.length : ℤ) →
        get_current_item pm = Except.ok (tl.items[pm.current_index.toNat]?)) ∧
      ((tl.items.length : ℤ) ≤ pm.current_index →
        get_current_item pm = Except.ok none) ∧
      (pm.current_index < 0 → 0 ≤ pm.current_index + (tl.items.length : ℤ) →
        get_current_item pm =
          Except.ok (tl.items[(pm.current_index + (tl.items.length : ℤ)).toNat]?)) ∧
      (tl.items ≠ [] → pm.current_index + (tl.items.length : ℤ) < 0 →
        get_current_item pm = Except.error ())) := by
  refine ⟨?_, ?_⟩
  · intro h
    simp [get_current_item, h]
  · intro tl hT
    refine ⟨?_, ?_, ?_, ?_, ?_⟩
    · intro he
      simp [get_current_item, hT, he]
    · intro h0 h1
      have hj : pm.current_index.toNat < tl.items.length := by omega
      have hx : tl.items[pm.current_index.toNat]? =
          some (tl.items[pm.current_index.toNat]) := List.getElem?_eq_getElem hj
      have hlen : 0 < tl.items.length := by omega
      have hne' : tl.items.isEmpty = false := by
        simp [List.isEmpty_iff]
        exact List.ne_nil_of_length_pos hlen
      simp [get_current_item, pyListGet, pyIndex, Except.map, hT, hne', h0, h1, hx]
    · intro hge
      by_cases he : tl.items.isEmpty
      · simp [get_current_item, hT, he]
      · simp [get_current_item, hT, he, not_lt.mpr hge]
    · intro hneg hge
      have hlen : 0 < tl.items.length := by omega
      have hne' : tl.items.isEmpty = false := by
        simp [List.isEmpty_iff]
        exact List.ne_nil_of_length_pos hlen
      have hlt : pm.current_index < (tl.items.length : ℤ) := by omega
      have hj : (pm.current_index + (tl.items.length : ℤ)).toNat < tl.items.length := by
        omega
      have hx : tl.items[(pm.current_index + (tl.items.length : ℤ)).toNat]? =
          some (tl.items[(pm.current_index + (tl.items.length : ℤ)).toNat]) :=
        List.getElem?_eq_getElem hj
      have h0' : ¬ 0 ≤ pm.current_index := not_le.mpr hneg
      simp [get_current_item, pyListGet, pyIndex, Except.map, hT, hne', hlt, h0', hge, hx]
    · intro hne hlt0
      have hlen : 0 < tl.items.length := List.length_pos.mpr hne
      have hne' : tl.items.isEmpty = false := by
        simp [List.isEmpty_iff]
        exact hne
      have hlt : pm.current_index < (tl.items.length : ℤ) := by omega
      have h0' : ¬ 0 ≤ pm.current_index := by omega
      have hge' : ¬ 0 ≤ pm.current_index + (tl.items.length : ℤ) := not_le.mpr hlt0
      simp [get_current_item, pyListGet, pyIndex, Except.map, hT, hne', hlt, h0', hge']

/-- C6 witness: the in-range branch on the loaded timeline at index 0
returns item "a". -/
theorem get_current_item_spec_witness :
    loadedPM.current_timeline = some demoTimeline ∧
    (0 : ℤ) ≤ loadedPM.current_index ∧
    loadedPM.current_index < (demoTimeline.items.length : ℤ) ∧
    get_current_item loadedPM =
      Except.ok (demoTimeline.items[loadedPM.current_index.toNat]?) :=
  ⟨rfl, by decide, by decide,
   ((get_current_item_spec loadedPM).2 demoTimeline rfl).2.1 (by decide) (by decide)⟩

/-- C7 counterexample: after a telemetry hint writes `timecode_ms := 42`
into memory (never persisted), the next `pause()` — a successful call,
since pause never fails — is a no-op on the already-paused machine and
writes nothing, leaving the persisted row (timecode 0) disagreeing with
memory (timecode 42) immediately after a successful mutating call. -/
theorem persist_after_noop_pause_counterexample :
    pause (on_show_status loadedPM (some 42)) loadedDB 3 =
      (on_show_status loadedPM (some 42), loadedDB) ∧
    (pause (on_show_status loadedPM (some 42)) loadedDB 3).1.timecode_ms = 42 ∧
    ((pause (on_show_status loadedPM (some 42)) loadedDB 3).2.playback.map
        (fun r => r.timecode_ms)) = some 0 ∧
    ¬ dbMatches (pause (on_show_status loadedPM (some 42)) loadedDB 3).1
        (pause (on_show_status loadedPM (some 42)) loadedDB 3).2 := by
  refine ⟨by decide, by decide, by decide, ?_⟩
  rintro ⟨r, hr, hidx, htc, hp⟩
  have hr' : r = { timeline_id := none, current_index := 0, timecode_ms := 0,
                   is_playing := false, updated_at := 0 } := by
    have : (pause (on_show_status loadedPM (some 42)) loadedDB 3).2.playback =
        some { timeline_id := none, current_index := 0, timecode_ms := 0,
               is_playing := false, updated_at := 0 } := by decide
    rw [this] at hr
    exact (Option.some.inj hr).symm
  rw [hr'] at htc
  simp at htc
  exact absurd htc.symm (by decide)

/-- C7 amended: provided the singleton row exists, `load_timeline`, a
successful `play`, a `pause` while playing, and successful `jump` and
`skip` calls each persist `(currentIndex, timecodeMs, isPlaying)` before
returning, so the stored row equals the in-memory values afterwards.
`pause` while already paused, however, writes nothing and changes
nothing, so the row matches memory after it only if it already did. -/
theorem mutators_persist (pm : PM) (db : DB) (t : ℚ) (td : TimelineData)
    (i : ℤ) (idx : Option ℤ) (d : ℤ) (hs : db.playback.isSome = true) :
    dbMatches (load_timeline pm db t td).1 (load_timeline pm db t td).2 ∧
    ((play pm db t idx).1 = true →
       dbMatches (play pm db t idx).2.1 (play pm db t idx).2.2) ∧
    (pm.is_playing = true →
       dbMatches (pause pm db t).1 (pause pm db t).2) ∧
    (pm.is_playing = false → pause pm db t = (pm, db)) ∧
    ((jump pm db t i).1 = true →
       dbMatches (jump pm db t i).2.1 (jump pm db t i).2.2) ∧
    ((skip pm db t d).1 = true →
       dbMatches (skip pm db t d).2.1 (skip pm db t d).2.2) :=
  ⟨load_timeline_matches pm db t td hs,
   fun h => play_matches pm db t idx hs h,
   fun h => pause_matches pm db t hs h,
   fun h => pause_not_playing pm db t h,
   fun h => jump_matches pm db t i hs h,
   fun h => skip_matches pm db t d hs h⟩

/-- C7 witness: the amended persistence contract instantiated on the
loaded three-item timeline and its seeded database. -/
theorem mutators_persist_witness :
    loadedDB.playback.isSome = true ∧
    (dbMatches (load_timeline loadedPM loadedDB 0 demoTimeline).1
       (load_timeline loadedPM loadedDB 0 demoTimeline).2 ∧
     ((play loadedPM loadedDB 0 (some 1)).1 = true →
        dbMatches (play loadedPM loadedDB 0 (some 1)).2.1
          (play loadedPM loadedDB 0 (some 1)).2.2) ∧
     (loadedPM.is_playing = true →
        dbMatches (pause loadedPM loadedDB 0).1 (pause loadedPM loadedDB 0).2) ∧
     (loadedPM.is_playing = false → pause loadedPM loadedDB 0 = (loadedPM, loadedDB)) ∧
     ((jump loadedPM loadedDB 0 1).1 = true →
        dbMatches (jump loadedPM loadedDB 0 1).2.1 (jump loadedPM loadedDB 0 1).2.2) ∧
     ((skip loadedPM loadedDB 0 1).1 = true →
        dbMatches (skip loadedPM loadedDB 0 1).2.1 (skip loadedPM loadedDB 0 1).2.2)) :=
  ⟨by decide, mutators_persist loadedPM loadedDB 0 demoTimeline 1 (some 1) 1 (by decide)⟩

/-- C9 counterexample: on the paused freshly-loaded state (frozen
timecode 0), two runs that differ only in the received telemetry hint
(999 versus none) observe different values from `getCurrentTimecode` —
the hint IS returned verbatim while paused. -/
theorem telemetry_hint_counterexample :
    get_current_timecode (on_show_status loadedPM (some 999)) 0 = 999 ∧
    get_current_timecode loadedPM 0 = 0 ∧
    get_current_timecode (on_show_status loadedPM (some 999)) 0 ≠
      get_current_timecode loadedPM 0 := by
  refine ⟨by decide, by decide, by decide⟩

/-- C9 amended: a show-channel `timecodeMs` hint is advisory only while
the machine is playing with a start-time anchor — there
`getCurrentTimecode` is clock-derived and unchanged by the hint; but
while not playing (or without an anchor) the hint overwrites the frozen
`timecodeMs` and becomes exactly the value `getCurrentTimecode` returns.
A message without the hint changes nothing. -/
theorem telemetry_hint_advisory (pm : PM) (h : ℤ) (t s : ℚ) :
    (pm.is_playing = true → pm.playback_start_time = some s →
       get_current_timecode (on_show_status pm (some h)) t =
         get_current_timecode pm t) ∧
    (pm.is_playing = false →
       get_current_timecode (on_show_status pm (some h)) t = h) ∧
    on_show_status pm none = pm := by
  refine ⟨?_, ?_, rfl⟩
  · intro h1 h2
    simp [on_show_status, get_current_timecode, h1, h2]
  · intro h1
    simp [on_show_status, get_current_timecode, h1]

/-- C9 witness: while playing with an anchor, a hint of 999 leaves the
clock-derived read unchanged. -/
theorem telemetry_hint_advisory_witness :
    anchoredPM.is_playing = true ∧ anchoredPM.playback_start_time = some 0 ∧
    get_current_timecode (on_show_status anchoredPM (some 999)) 1 =
      get_current_timecode anchoredPM 1 :=
  ⟨rfl, rfl, (telemetry_hint_advisory anchoredPM 999 1 0).1 rfl rfl⟩

/-- C8: the code violates the at-most-one-active invariant that
models.py itself documents ("Only one active at a time"): two successive
`create_timeline` calls with the active flag set store two rows with
`is_active = true` (no deactivation happens anywhere in
`create_timeline`), and likewise `update_timeline` can activate a second
row while another is still active. -/
theorem two_active_timelines :
    (((create_timeline (create_timeline emptyDB "A" demoTimeline
          "neon-chalkboard" 0 0 true none).2 "B" demoTimeline
          "neon-chalkboard" 0 0 true none).2.timelines.filter
        (fun r => r.is_active)).length = 2) ∧
    (((update_timeline (create_timeline (create_timeline emptyDB "A" demoTimeline
          "neon-chalkboard" 0 0 true none).2 "B" demoTimeline
          "neon-chalkboard" 0 0 false none).2 2
          (fun r => { r with is_active := true })).timelines.filter
        (fun r => r.is_active)).length = 2) := by
  refine ⟨by decide, by decide⟩
